import Mathlib

/-!
# Verification of the datahive token service and request pipeline

Shallow embedding of `src/token_service.py` and `src/api_script.py`.

Modelling conventions:
* Wall-clock instants and durations are integers (seconds).  A call that does
  not sleep is treated as instantaneous; `time.sleep(d)` advances the clock
  by `d`.
* The identity provider (Azure AD token endpoint) is an oracle
  `provider : Nat → ProviderMsg`; the n-th POST to the token endpoint made by
  the object under study receives `provider n`.  A counter `pcalls` threads
  the number of token-endpoint calls made so far.
* The data-warehouse transport is an oracle `transport : Nat → HttpResult`;
  the attempt with loop index `k` inside `_make_request` receives
  `transport k`.
* Python exceptions become `Except` values; the two `raise` sites of
  `_acquire_new_token` become the constructors `tokenAcquisitionError`
  (for `requests.RequestException`) and `tokenFormatError` (for `KeyError`).
* Python truthiness: `if not self.access_token` is true both for `None` and
  for the empty string, so validity checks test `tok ≠ ""` explicitly.
* Observable actions (issued HTTP attempts with their headers and times,
  sleeps, forced token refreshes, status polls) are recorded in event lists
  so that counting/ordering claims are statable.
-/

deriving instance DecidableEq for Except

/-- Mutable token state of `TokenService` (`src/token_service.py`, lines
24-27): `access_token`, `refresh_token`, `token_expires_at`. -/
structure TokenState where
  access_token : Option String
  refresh_token : Option String
  token_expires_at : Option Int
  deriving DecidableEq, Repr

/-- Parsed JSON body of a token-endpoint response; a missing field is
`none` (a lookup of a missing field raises `KeyError` in Python). -/
structure TokenResponse where
  access_token : Option String
  expires_in : Option Int
  deriving DecidableEq, Repr

/-- One interaction with the identity provider: either the transport layer
fails (`requests.RequestException`, including `raise_for_status` on an HTTP
error status) or a JSON body is delivered. -/
inductive ProviderMsg where
  | transportFailure (msg : String)
  | response (r : TokenResponse)
  deriving DecidableEq, Repr

/-- The two failure modes of `_acquire_new_token` (lines 94-99 of
`token_service.py`): the spec names them `TokenAcquisitionError`
(raised from the `requests.RequestException` handler) and
`TokenFormatError` (raised from the `KeyError` handler). -/
inductive TokenError where
  | tokenAcquisitionError (msg : String)
  | tokenFormatError (msg : String)
  deriving DecidableEq, Repr

/-- `TokenService._is_token_valid` (lines 57-66).  Python's
`if not self.access_token or not self.token_expires_at: return False`
treats the empty-string token as absent (truthiness); otherwise the check is
`datetime.now() < token_expires_at - buffer` with
`buffer = cache_config.get("cache_expiry_buffer", 300)`. -/
def is_token_valid (st : TokenState) (buffer now : Int) : Bool :=
  match st.access_token, st.token_expires_at with
  | some tok, some exp => decide (tok ≠ "") && decide (now < exp - buffer)
  | _, _ => false

/-- `TokenService._acquire_new_token` (lines 68-99) applied to one provider
interaction `pr`.  On transport failure nothing has been assigned, and the
`KeyError` for a missing `access_token` field fires while evaluating
`token_data['access_token']`, before any assignment; so in both failure
cases the state is returned unchanged.  On success it stores the token and
sets `token_expires_at = now + token_data.get('expires_in', 3600)`. -/
def acquire_new_token (st : TokenState) (now : Int) (pr : ProviderMsg) :
    Except TokenError String × TokenState :=
  match pr with
  | .transportFailure m => (.error (.tokenAcquisitionError m), st)
  | .response r =>
    match r.access_token with
    | none => (.error (.tokenFormatError "access_token"), st)
    | some tok =>
      (.ok tok,
       { st with access_token := some tok,
                 token_expires_at := some (now + r.expires_in.getD 3600) })

/-- `TokenService.get_access_token` (lines 48-55): return the cached token
when `_is_token_valid()` holds, otherwise acquire a new one.  The `Nat`
component counts token-endpoint calls made so far. -/
def get_access_token (st : TokenState) (buffer now : Int)
    (provider : Nat → ProviderMsg) (pcalls : Nat) :
    Except TokenError String × TokenState × Nat :=
  if is_token_valid st buffer now then
    (.ok (st.access_token.getD ""), st, pcalls)
  else
    let r := acquire_new_token st now (provider pcalls)
    (r.1, r.2, pcalls + 1)

/-- `TokenService.refresh_access_token` (lines 101-110): whether or not a
refresh token is present (Python truthiness again), both branches fall
through to `_acquire_new_token` — no refresh-token grant is implemented. -/
def refresh_access_token (st : TokenState) (now : Int)
    (provider : Nat → ProviderMsg) (pcalls : Nat) :
    Except TokenError String × TokenState × Nat :=
  match st.refresh_token with
  | none =>
    let r := acquire_new_token st now (provider pcalls)
    (r.1, r.2, pcalls + 1)
  | some rt =>
    if rt = "" then
      let r := acquire_new_token st now (provider pcalls)
      (r.1, r.2, pcalls + 1)
    else
      let r := acquire_new_token st now (provider pcalls)
      (r.1, r.2, pcalls + 1)

/-- `TokenService.revoke_token` (lines 112-128).  `if not self.access_token:
return True` leaves the state untouched when the token is `None` or the
empty string; otherwise all three fields are cleared and `True` is
returned.  The `except` branch (return `False`) guards a body that cannot
raise and is unreachable. -/
def revoke_token (st : TokenState) : Bool × TokenState :=
  match st.access_token with
  | none => (true, st)
  | some tok =>
    if tok = "" then (true, st)
    else (true, { access_token := none, refresh_token := none,
                  token_expires_at := none })

/-- HTTP headers built by `DataHiveAPI._get_headers` (lines 54-70); only the
four keys the code writes are modelled. -/
structure Headers where
  authorization : Option String
  content_type : String
  accept : String
  user_agent : String
  deriving DecidableEq, Repr

/-- `DataHiveAPI._get_headers` (lines 54-70): any exception from
`get_access_token` is caught and the request proceeds without an
`Authorization` entry.  The function is total: it never propagates a
failure. -/
def get_headers (st : TokenState) (buffer now : Int)
    (provider : Nat → ProviderMsg) (pcalls : Nat) :
    Headers × TokenState × Nat :=
  match get_access_token st buffer now provider pcalls with
  | (.ok tok, st1, pc1) =>
    (⟨some ("Bearer " ++ tok), "application/json", "application/json",
      "DataHive-API-Client/1.0"⟩, st1, pc1)
  | (.error _, st1, pc1) =>
    (⟨none, "application/json", "application/json",
      "DataHive-API-Client/1.0"⟩, st1, pc1)

/-- HTTP response of the warehouse transport, reduced to its status code
(the only field `_make_request` inspects). -/
structure HttpResponse where
  status : Nat
  deriving DecidableEq, Repr

/-- One interaction with the warehouse transport: `requests.request` either
raises a `requests.RequestException` or delivers a response. -/
inductive HttpResult where
  | transportError (msg : String)
  | response (r : HttpResponse)
  deriving DecidableEq, Repr

/-- Errors surfaced by `_make_request`: a propagated transport exception, a
propagated `HTTPError` from `raise_for_status`, a token error escaping from
`refresh_access_token` in the 401 branch (it is a plain `Exception`, which
the `except requests.RequestException` clause does not catch), and the
unreachable final `raise Exception("Max retries exceeded")`. -/
inductive ReqError where
  | transportError (msg : String)
  | httpError (status : Nat)
  | tokenError (e : TokenError)
  | maxRetriesExceeded
  deriving DecidableEq, Repr

/-- Observable actions of `_make_request`, in program order: an HTTP attempt
issued at a wall-clock instant with its headers, a `time.sleep`, and a call
to `refresh_access_token` (a forced token refresh). -/
inductive Event where
  | attempt (time : Int) (headers : Headers)
  | sleep (duration : Nat)
  | refresh
  deriving DecidableEq, Repr

/-- Full outcome of a `_make_request` call: returned value or propagated
error, final token state, number of token-endpoint calls made, final clock,
and the event trace. -/
structure ReqOutcome where
  result : Except ReqError HttpResponse
  tok_state : TokenState
  pcalls : Nat
  now : Int
  events : List Event
  deriving DecidableEq, Repr

/-- Loop body of `DataHiveAPI._make_request` (lines 81-109), one recursive
step per `for attempt in range(max_retries + 1)` iteration; `fuel` is the
number of iterations left, so the loop is entered with
`fuel = max_retries + 1` and `attempt = 0`, and the `fuel = 0` base case is
the `raise Exception("Max retries exceeded")` after the loop.  Per
iteration: issue the request; on a 401 with `attempt < max_retries`,
force-refresh the token (a failure there propagates out: the raised error
is not a `requests.RequestException`), rebuild headers via `_get_headers`,
and retry at once; otherwise `raise_for_status` fails on 400 ≤ status < 600,
which the `except` clause turns into `sleep(2 ** attempt)` and a retry, or a
propagated error on the last attempt; any other status is returned. -/
def make_request_loop (mr : Nat) (transport : Nat → HttpResult)
    (provider : Nat → ProviderMsg) (buffer : Int) :
    Nat → Nat → TokenState → Nat → Headers → Int → ReqOutcome
  | 0, _, st, pcalls, _, now =>
    ⟨.error .maxRetriesExceeded, st, pcalls, now, []⟩
  | fuel + 1, attempt, st, pcalls, headers, now =>
    match transport attempt with
    | .transportError m =>
      if attempt = mr then
        ⟨.error (.transportError m), st, pcalls, now, [.attempt now headers]⟩
      else
        let d : Nat := 2 ^ attempt
        let r := make_request_loop mr transport provider buffer fuel
          (attempt + 1) st pcalls headers (now + (d : Int))
        { r with events := .attempt now headers :: .sleep d :: r.events }
    | .response resp =>
      if resp.status = 401 ∧ attempt < mr then
        match refresh_access_token st now provider pcalls with
        | (.error e, st1, pc1) =>
          ⟨.error (.tokenError e), st1, pc1, now, [.attempt now headers, .refresh]⟩
        | (.ok _, st1, pc1) =>
          let h := get_headers st1 buffer now provider pc1
          let r := make_request_loop mr transport provider buffer fuel
            (attempt + 1) h.2.1 h.2.2 h.1 now
          { r with events := .attempt now headers :: .refresh :: r.events }
      else if 400 ≤ resp.status ∧ resp.status < 600 then
        if attempt = mr then
          ⟨.error (.httpError resp.status), st, pcalls, now, [.attempt now headers]⟩
        else
          let d : Nat := 2 ^ attempt
          let r := make_request_loop mr transport provider buffer fuel
            (attempt + 1) st pcalls headers (now + (d : Int))
          { r with events := .attempt now headers :: .sleep d :: r.events }
      else
        ⟨.ok resp, st, pcalls, now, [.attempt now headers]⟩

/-- `DataHiveAPI._make_request` (lines 72-109): build headers once via
`_get_headers`, then run the retry loop with `max_retries + 1` iterations
starting at attempt 0. -/
def make_request (mr : Nat) (transport : Nat → HttpResult)
    (provider : Nat → ProviderMsg) (buffer : Int)
    (st : TokenState) (now : Int) : ReqOutcome :=
  let h := get_headers st buffer now provider 0
  make_request_loop mr transport provider buffer (mr + 1) 0 h.2.1 h.2.2 h.1 now

/-- True of attempt events; used to count issued HTTP attempts. -/
def is_attempt : Event → Bool
  | .attempt _ _ => true
  | _ => false

/-- True of forced-refresh events. -/
def is_refresh : Event → Bool
  | .refresh => true
  | _ => false

/-- The sleep durations of a trace, in order. -/
def sleeps_of : List Event → List Nat
  | [] => []
  | .sleep d :: rest => d :: sleeps_of rest
  | _ :: rest => sleeps_of rest

/-- A transport interaction on which `raise_for_status` (or the request
itself) fails and which does not take the 401-refresh branch regardless of
the attempt index. -/
def transport_failure_non401 : HttpResult → Prop
  | .transportError _ => True
  | .response r => 400 ≤ r.status ∧ r.status < 600 ∧ r.status ≠ 401

instance : DecidablePred transport_failure_non401 := fun h =>
  match h with
  | .transportError _ => .isTrue trivial
  | .response _ => instDecidableAnd

/-- The error `_make_request` propagates when its final attempt fails. -/
def fail_result : HttpResult → Except ReqError HttpResponse
  | .transportError m => .error (.transportError m)
  | .response r => .error (.httpError r.status)

/-- Parsed body of a `GET query/{id}/status` response; `state` and `error`
are the two keys `wait_for_query_completion` reads with `.get`. -/
structure QueryStatus where
  state : Option String
  error : Option String
  deriving DecidableEq, Repr

/-- Outcome of `DataHiveClient.wait_for_query_completion`: downloaded
results, the `Exception(f"Query failed: ...")`, or the `TimeoutError`. -/
inductive WaitOutcome where
  | results (r : String)
  | jobFailed (msg : String)
  | timedOut (msg : String)
  deriving DecidableEq, Repr

/-- Observable actions of the polling loop: the k-th status poll (issued at
the given wall-clock instant) and a `time.sleep`. -/
inductive PollEvent where
  | poll (k : Nat) (time : Int)
  | sleep (duration : Nat)
  deriving DecidableEq, Repr

/-- Message of the `TimeoutError` raised at line 282 of `api_script.py`. -/
def timeout_msg (query_id : String) (timeout : Int) : String :=
  "Query " ++ query_id ++ " did not complete within " ++ toString timeout
    ++ " seconds"

/-- Terminal-success test of line 275:
`status.get("state") in ["COMPLETED", "SUCCEEDED"]`. -/
def is_success_state (s : QueryStatus) : Bool :=
  s.state = some "COMPLETED" || s.state = some "SUCCEEDED"

/-- Terminal-failure test of line 277:
`status.get("state") in ["FAILED", "CANCELLED"]`. -/
def is_failure_state (s : QueryStatus) : Bool :=
  s.state = some "FAILED" || s.state = some "CANCELLED"

/-- A status on which the loop stops polling. -/
def terminal_state (s : QueryStatus) : Bool :=
  is_success_state s || is_failure_state s

/-- Loop of `DataHiveClient.wait_for_query_completion` (lines 268-282).
Status requests and the results download are treated as instantaneous, so
the k-th poll happens at `start_time + 5 * k` and the
`while time.time() - start_time < timeout` guard is `5 * k < timeout`.
`status k` is the parsed body of the k-th `get_query_status` call,
`download` the value `download_results` would return.  `fuel` only bounds
the recursion; it is chosen large enough (see
`wait_for_query_completion`) that it never runs out before the guard
fails, and its base case returns the same `TimeoutError`. -/
def wait_loop (query_id : String) (timeout : Int)
    (status : Nat → QueryStatus) (download : String) :
    Nat → Nat → WaitOutcome × List PollEvent
  | 0, _ => (.timedOut (timeout_msg query_id timeout), [])
  | fuel + 1, k =>
    if 5 * (k : Int) < timeout then
      let s := status k
      if is_success_state s then
        (.results download, [.poll k (5 * (k : Int))])
      else if is_failure_state s then
        (.jobFailed ("Query failed: " ++ s.error.getD "Unknown error"),
         [.poll k (5 * (k : Int))])
      else
        let r := wait_loop query_id timeout status download fuel (k + 1)
        (r.1, .poll k (5 * (k : Int)) :: .sleep 5 :: r.2)
    else (.timedOut (timeout_msg query_id timeout), [])

/-- `DataHiveClient.wait_for_query_completion` (lines 268-282), entered at
poll index 0 with fuel `timeout.toNat + 1`: since each iteration advances
the clock by 5 seconds, the guard `5 * k < timeout` fails at some
`k ≤ timeout.toNat`, so the fuel never runs out first. -/
def wait_for_query_completion (query_id : String) (timeout : Int)
    (status : Nat → QueryStatus) (download : String) :
    WaitOutcome × List PollEvent :=
  wait_loop query_id timeout status download (timeout.toNat + 1) 0

/-- The poll/sleep trace of `c` consecutive non-terminal polls starting at
index `j`: polls at instants 5j, 5(j+1), …, each followed by a 5-second
sleep. -/
def polls_from : Nat → Nat → List PollEvent
  | _, 0 => []
  | j, c + 1 => .poll j (5 * (j : Int)) :: .sleep 5 :: polls_from (j + 1) c

/-- The poll/sleep prefix produced by `k` consecutive non-terminal polls
starting from the first one: polls at instants 0, 5, …, 5(k-1), each
followed by a 5-second sleep. -/
def polls_up_to (k : Nat) : List PollEvent :=
  polls_from 0 k

example : is_token_valid ⟨some "t", none, some 1000⟩ 300 0 = true := by decide

example : is_token_valid ⟨some "", none, some 1000⟩ 300 0 = false := by decide

example :
    get_access_token ⟨some "t", none, some 1000⟩ 300 800
      (fun _ => .response ⟨some "u", none⟩) 0
      = (.ok "u", ⟨some "u", none, some 4400⟩, 1) := by decide

/-- A failed acquisition leaves the token state exactly as it was. -/
lemma acquire_error_state (st : TokenState) (now : Int) (pr : ProviderMsg)
    (e : TokenError) (h : (acquire_new_token st now pr).1 = .error e) :
    (acquire_new_token st now pr).2 = st := by
  match pr with
  | .transportFailure m => rfl
  | .response ⟨none, ein⟩ => rfl
  | .response ⟨some tok, ein⟩ => simp [acquire_new_token] at h

/-- A failed `get_access_token` leaves the token state exactly as it was. -/
lemma get_access_token_error_state (st : TokenState) (buffer now : Int)
    (provider : Nat → ProviderMsg) (pcalls : Nat) (e : TokenError)
    (h : (get_access_token st buffer now provider pcalls).1 = .error e) :
    (get_access_token st buffer now provider pcalls).2.1 = st := by
  by_cases hv : is_token_valid st buffer now
  · simp [get_access_token, hv] at h
  · simp only [get_access_token, hv, if_false, Bool.false_eq_true] at h ⊢
    exact acquire_error_state st now (provider pcalls) e h

/-- `refresh_access_token` is `acquire_new_token` on the next provider
message, whatever the cached refresh token is. -/
lemma refresh_is_acquire (st : TokenState) (now : Int)
    (provider : Nat → ProviderMsg) (pcalls : Nat) :
    refresh_access_token st now provider pcalls
      = ((acquire_new_token st now (provider pcalls)).1,
         (acquire_new_token st now (provider pcalls)).2, pcalls + 1) := by
  cases hrt : st.refresh_token with
  | none => simp [refresh_access_token, hrt]
  | some rt =>
    by_cases h : rt = "" <;> simp [refresh_access_token, hrt, h]

/-- Claim C4: `_acquire_new_token` stores the returned `access_token` and
sets `token_expires_at = now + expires_in` (default 3600 when absent) on a
successful provider response; it maps a transport failure to
`TokenAcquisitionError` and a response missing `access_token` to
`TokenFormatError`; and those are its only two failure cases. -/
theorem C4_acquire_contract (st : TokenState) (now : Int) :
    (∀ m, acquire_new_token st now (.transportFailure m)
        = (.error (.tokenAcquisitionError m), st))
  ∧ (∀ ein, acquire_new_token st now (.response ⟨none, ein⟩)
        = (.error (.tokenFormatError "access_token"), st))
  ∧ (∀ tok ein, acquire_new_token st now (.response ⟨some tok, ein⟩)
        = (.ok tok, { st with access_token := some tok,
                              token_expires_at := some (now + ein.getD 3600) }))
  ∧ (∀ tok, (acquire_new_token st now (.response ⟨some tok, none⟩)).2.token_expires_at
        = some (now + 3600))
  ∧ (∀ pr e, (acquire_new_token st now pr).1 = .error e →
        (∃ m, pr = .transportFailure m) ∨ ∃ ein, pr = .response ⟨none, ein⟩) := by
  refine ⟨fun m => rfl, fun ein => rfl, fun tok ein => rfl, fun tok => rfl, ?_⟩
  intro pr e h
  match pr with
  | .transportFailure m => exact .inl ⟨m, rfl⟩
  | .response ⟨none, ein⟩ => exact .inr ⟨ein, rfl⟩
  | .response ⟨some tok, ein⟩ => simp [acquire_new_token] at h

/-- Witness for C4 at a concrete transport failure. -/
theorem C4_witness :
    (∃ m, ProviderMsg.transportFailure "conn reset"
            = ProviderMsg.transportFailure m)
    ∨ ∃ ein, ProviderMsg.transportFailure "conn reset"
            = ProviderMsg.response ⟨none, ein⟩ :=
  (C4_acquire_contract ⟨none, none, none⟩ 0).2.2.2.2
    (.transportFailure "conn reset") (.tokenAcquisitionError "conn reset")
    (by decide)

/-- Claim C9: when `_acquire_new_token` raises — transport failure or a
response missing `access_token` — the cached `access_token`,
`refresh_token` and `token_expires_at` are left exactly as they were; in
particular a failed forced refresh keeps the previous token cached, and a
later `get_access_token` still returns that token while it is within its
expiry buffer. -/
theorem C9_failed_acquire_preserves_state (st : TokenState) (now : Int) :
    (∀ pr e, (acquire_new_token st now pr).1 = .error e →
       (acquire_new_token st now pr).2 = st)
  ∧ (∀ provider pcalls e,
       (refresh_access_token st now provider pcalls).1 = .error e →
       (refresh_access_token st now provider pcalls).2.1 = st)
  ∧ (∀ buffer now2 provider pcalls tok,
       is_token_valid st buffer now2 = true → st.access_token = some tok →
       get_access_token st buffer now2 provider pcalls = (.ok tok, st, pcalls)) := by
  refine ⟨fun pr e h => acquire_error_state st now pr e h, ?_, ?_⟩
  · intro provider pcalls e h
    rw [refresh_is_acquire] at h ⊢
    exact acquire_error_state st now (provider pcalls) e h
  · intro buffer now2 provider pcalls tok hv htok
    simp [get_access_token, hv, htok]

/-- Witness for C9: a transport-failed refresh leaves a concrete state
untouched, and a valid cached token is still returned afterwards. -/
theorem C9_witness :
    (refresh_access_token ⟨some "t", none, some 1000⟩ 700
        (fun _ => .transportFailure "down") 0).2.1
      = ⟨some "t", none, some 1000⟩
  ∧ get_access_token ⟨some "t", none, some 1000⟩ 300 650
        (fun _ => .transportFailure "down") 0
      = (.ok "t", ⟨some "t", none, some 1000⟩, 0) :=
  ⟨(C9_failed_acquire_preserves_state ⟨some "t", none, some 1000⟩ 700).2.1
      (fun _ => .transportFailure "down") 0 (.tokenAcquisitionError "down")
      (by decide),
   (C9_failed_acquire_preserves_state ⟨some "t", none, some 1000⟩ 700).2.2
      300 650 (fun _ => .transportFailure "down") 0 "t" (by decide) (by decide)⟩

/-- Counterexample to claim C5: with a still-valid cached token `"tok"` and
a provider that issues the very same token string again,
`refresh_access_token` yields a token equal to the prior cached one — the
code guarantees no distinctness. -/
theorem C5_counterexample :
    is_token_valid ⟨some "tok", none, some 10000⟩ 300 0 = true
  ∧ (⟨some "tok", none, some 10000⟩ : TokenState).access_token = some "tok"
  ∧ (refresh_access_token ⟨some "tok", none, some 10000⟩ 0
       (fun _ => .response ⟨some "tok", some 3600⟩) 0).1 = .ok "tok" := by
  decide

/-- Claim C5 as amended: `refresh_access_token` unconditionally re-runs the
full client-credentials exchange regardless of the cached token's validity,
and on a successful exchange caches and returns the provider's newly issued
token (with a fresh expiry) — but that token need not be distinct from the
prior cached one. -/
theorem C5_amended (st : TokenState) (now : Int)
    (provider : Nat → ProviderMsg) (pcalls : Nat) :
    refresh_access_token st now provider pcalls
      = ((acquire_new_token st now (provider pcalls)).1,
         (acquire_new_token st now (provider pcalls)).2, pcalls + 1)
  ∧ (∀ tok ein, provider pcalls = .response ⟨some tok, ein⟩ →
      (refresh_access_token st now provider pcalls).1 = .ok tok
      ∧ (refresh_access_token st now provider pcalls).2.1.access_token = some tok
      ∧ (refresh_access_token st now provider pcalls).2.1.token_expires_at
          = some (now + ein.getD 3600)) := by
  refine ⟨refresh_is_acquire st now provider pcalls, ?_⟩
  intro tok ein hpr
  rw [refresh_is_acquire, hpr]
  simp [acquire_new_token]

/-- Witness for C5 at a concrete successful exchange. -/
theorem C5_witness :
    (refresh_access_token ⟨some "old", none, some 10000⟩ 0
       (fun _ => .response ⟨some "new", none⟩) 0).1 = .ok "new"
  ∧ (refresh_access_token ⟨some "old", none, some 10000⟩ 0
       (fun _ => .response ⟨some "new", none⟩) 0).2.1.token_expires_at
      = some 3600 := by
  have h := (C5_amended ⟨some "old", none, some 10000⟩ 0
    (fun _ => .response ⟨some "new", none⟩) 0).2 "new" none rfl
  exact ⟨h.1, h.2.2⟩

/-- Counterexample to claim C8: on the cache state holding the empty-string
access token (reachable: the last conjunct shows `_acquire_new_token`
produces it when the provider issues `access_token = ""`), `revoke_token`
returns `True` but clears nothing — `token_expires_at` stays set, so not
every cache state has its token state cleared.  Cause: `if not
self.access_token` is true for `""`. -/
theorem C8_counterexample :
    (revoke_token ⟨some "", none, some 1000⟩).1 = true
  ∧ (revoke_token ⟨some "", none, some 1000⟩).2.token_expires_at = some 1000
  ∧ (revoke_token ⟨some "", none, some 1000⟩).2.access_token = some ""
  ∧ (acquire_new_token ⟨none, none, none⟩ (-2600)
       (.response ⟨some "", some 3600⟩)).2 = ⟨some "", none, some 1000⟩ := by
  decide

/-- Claim C8 as amended: `revoke_token` always returns `True`; when a
non-empty access token is cached it clears all three cached fields; when
the cached access token is absent or empty it returns `True` leaving the
state unchanged. -/
theorem C8_amended (st : TokenState) :
    (revoke_token st).1 = true
  ∧ (∀ tok, st.access_token = some tok → tok ≠ "" →
      (revoke_token st).2 = ⟨none, none, none⟩)
  ∧ ((st.access_token = none ∨ st.access_token = some "") →
      (revoke_token st).2 = st) := by
  refine ⟨?_, ?_, ?_⟩
  · cases htok : st.access_token with
    | none => simp [revoke_token, htok]
    | some tok => by_cases h : tok = "" <;> simp [revoke_token, htok, h]
  · intro tok htok hne
    simp [revoke_token, htok, hne]
  · rintro (htok | htok) <;> simp [revoke_token, htok]

/-- Witness for C8: revoking a concrete state with a non-empty token clears
all three fields. -/
theorem C8_witness :
    (revoke_token ⟨some "t", some "r", some 5⟩).1 = true
  ∧ (revoke_token ⟨some "t", some "r", some 5⟩).2 = ⟨none, none, none⟩ :=
  ⟨(C8_amended ⟨some "t", some "r", some 5⟩).1,
   (C8_amended ⟨some "t", some "r", some 5⟩).2.1 "t" rfl (by decide)⟩

/-- Counterexample to claim C1: the cache state stores the token `""` with
expiry 1000 and the clock (0) is strictly before `expires_at - buffer`
(700), yet `get_access_token` does not return the cached token unchanged:
it acquires a new one (the token-endpoint call counter moves from 0 to 1),
caches it and returns it.  Cause: `if not self.access_token` in
`_is_token_valid` treats the stored empty string as no token. -/
theorem C1_counterexample :
    (0 : Int) < 1000 - 300
  ∧ get_access_token ⟨some "", none, some 1000⟩ 300 0
      (fun _ => .response ⟨some "newtok", some 3600⟩) 0
      = (.ok "newtok", ⟨some "newtok", none, some 3600⟩, 1)
  ∧ (.ok "newtok" : Except TokenError String) ≠ .ok "" := by
  decide

/-- Claim C1 as amended: for every cache state with a stored non-empty
token and an expiry, `get_access_token` returns the cached token unchanged
without acquiring a new one iff the clock is strictly before
`expires_at - buffer`; otherwise it runs `_acquire_new_token`, caching and
returning the provider's token (one token-endpoint call is consumed). -/
theorem C1_amended (st : TokenState) (buffer now : Int)
    (provider : Nat → ProviderMsg) (pcalls : Nat) (tok : String) (exp : Int)
    (htok : st.access_token = some tok) (hne : tok ≠ "")
    (hexp : st.token_expires_at = some exp) :
    (now < exp - buffer →
       get_access_token st buffer now provider pcalls = (.ok tok, st, pcalls))
  ∧ (¬ now < exp - buffer →
       get_access_token st buffer now provider pcalls
         = ((acquire_new_token st now (provider pcalls)).1,
            (acquire_new_token st now (provider pcalls)).2, pcalls + 1))
  ∧ (∀ t ein, ¬ now < exp - buffer →
       provider pcalls = .response ⟨some t, ein⟩ →
       get_access_token st buffer now provider pcalls
         = (.ok t, { st with access_token := some t,
                             token_expires_at := some (now + ein.getD 3600) },
            pcalls + 1)) := by
  refine ⟨?_, ?_, ?_⟩
  · intro h
    simp [get_access_token, is_token_valid, htok, hexp, hne, h]
  · intro h
    simp [get_access_token, is_token_valid, htok, hexp, h]
  · intro t ein h hpr
    simp [get_access_token, is_token_valid, htok, hexp, h, hpr,
      acquire_new_token]

/-- Witness for C1: both sides of the dichotomy at concrete states. -/
theorem C1_witness :
    get_access_token ⟨some "t", none, some 1000⟩ 300 699
        (fun _ => .response ⟨some "u", none⟩) 0
      = (.ok "t", ⟨some "t", none, some 1000⟩, 0)
  ∧ get_access_token ⟨some "t", none, some 1000⟩ 300 700
        (fun _ => .response ⟨some "u", none⟩) 0
      = (.ok "u", ⟨some "u", none, some 4300⟩, 1) := by
  have h1 := (C1_amended ⟨some "t", none, some 1000⟩ 300 699
    (fun _ => .response ⟨some "u", none⟩) 0 "t" 1000 rfl (by decide) rfl).1
    (by decide)
  have h2 := (C1_amended ⟨some "t", none, some 1000⟩ 300 700
    (fun _ => .response ⟨some "u", none⟩) 0 "t" 1000 rfl (by decide) rfl).2.2
    "u" none (by decide) rfl
  exact ⟨h1, by simpa using h2⟩

/-- Claim C7: `_get_headers` never propagates a token failure — it is a
total function.  It always emits `Content-Type`, `Accept` and `User-Agent`;
when obtaining the token fails (with any `TokenError`) the headers simply
lack the `Authorization` entry and the token state is untouched, and when
it succeeds the `Authorization` entry carries the bearer token.  The last
two conjuncts support "this is the only place a failure is swallowed":
`get_access_token` and `refresh_access_token` both propagate acquisition
errors unchanged to their caller. -/
theorem C7_headers_fallback (st : TokenState) (buffer now : Int)
    (provider : Nat → ProviderMsg) (pcalls : Nat) :
    (get_headers st buffer now provider pcalls).1.content_type = "application/json"
  ∧ (get_headers st buffer now provider pcalls).1.accept = "application/json"
  ∧ (get_headers st buffer now provider pcalls).1.user_agent = "DataHive-API-Client/1.0"
  ∧ (∀ e, (get_access_token st buffer now provider pcalls).1 = .error e →
      (get_headers st buffer now provider pcalls).1.authorization = none
      ∧ (get_headers st buffer now provider pcalls).2.1 = st)
  ∧ (∀ tok, (get_access_token st buffer now provider pcalls).1 = .ok tok →
      (get_headers st buffer now provider pcalls).1.authorization
        = some ("Bearer " ++ tok))
  ∧ (is_token_valid st buffer now = false →
      (get_access_token st buffer now provider pcalls).1
        = (acquire_new_token st now (provider pcalls)).1)
  ∧ (refresh_access_token st now provider pcalls).1
      = (acquire_new_token st now (provider pcalls)).1 := by
  rcases hga : get_access_token st buffer now provider pcalls with ⟨r, st1, pc1⟩
  cases r with
  | ok tok =>
    refine ⟨by simp [get_headers, hga], by simp [get_headers, hga],
      by simp [get_headers, hga], ?_, ?_, ?_, ?_⟩
    · intro e he
      simp at he
    · intro t ht
      simp only [] at ht
      injection ht with ht
      subst ht
      simp [get_headers, hga]
    · intro hv
      have h2 : get_access_token st buffer now provider pcalls
          = ((acquire_new_token st now (provider pcalls)).1,
             (acquire_new_token st now (provider pcalls)).2, pcalls + 1) := by
        simp [get_access_token, hv]
      rw [hga] at h2
      simpa using congrArg Prod.fst h2
    · rw [refresh_is_acquire]
  | error e =>
    have hst1 : st1 = st := by
      have h2 := get_access_token_error_state st buffer now provider pcalls e
        (by rw [hga])
      rw [hga] at h2
      exact h2
    refine ⟨by simp [get_headers, hga], by simp [get_headers, hga],
      by simp [get_headers, hga], ?_, ?_, ?_, ?_⟩
    · intro e2 _
      exact ⟨by simp [get_headers, hga], by simp [get_headers, hga, hst1]⟩
    · intro t ht
      simp at ht
    · intro hv
      have h2 : get_access_token st buffer now provider pcalls
          = ((acquire_new_token st now (provider pcalls)).1,
             (acquire_new_token st now (provider pcalls)).2, pcalls + 1) := by
        simp [get_access_token, hv]
      rw [hga] at h2
      simpa using congrArg Prod.fst h2
    · rw [refresh_is_acquire]

/-- Witness for C7: with an unreachable provider and no cached token, the
request proceeds unauthenticated with the three fixed headers. -/
theorem C7_witness :
    (get_headers ⟨none, none, none⟩ 300 0
       (fun _ => .transportFailure "down") 0).1.authorization = none
  ∧ (get_headers ⟨none, none, none⟩ 300 0
       (fun _ => .transportFailure "down") 0).1.content_type
      = "application/json"
  ∧ (get_headers ⟨none, none, none⟩ 300 0
       (fun _ => .transportFailure "down") 0).2.1 = ⟨none, none, none⟩ := by
  have h := C7_headers_fallback ⟨none, none, none⟩ 300 0
    (fun _ => .transportFailure "down") 0
  have he := h.2.2.2.1 (.tokenAcquisitionError "down") (by decide)
  exact ⟨he.1, h.1, he.2⟩

/-- Claim C10: a `wait_for_query_completion` call with non-positive timeout
raises `TimeoutError` at once — the event trace is empty, so no status
request is issued, nothing is downloaded, and no sleep happens. -/
theorem C10_nonpositive_timeout (query_id : String) (timeout : Int)
    (status : Nat → QueryStatus) (download : String) (h : timeout ≤ 0) :
    wait_for_query_completion query_id timeout status download
      = (.timedOut (timeout_msg query_id timeout), []) := by
  have ht : timeout.toNat = 0 := Int.toNat_of_nonpos h
  have hguard : ¬ ((0 : Int) < timeout) := by omega
  simp [wait_for_query_completion, ht, wait_loop, hguard]

/-- Witness for C10 at timeout 0. -/
theorem C10_witness :
    wait_for_query_completion "q7" 0 (fun _ => ⟨some "RUNNING", none⟩) "res"
      = (.timedOut (timeout_msg "q7" 0), []) :=
  C10_nonpositive_timeout "q7" 0 (fun _ => ⟨some "RUNNING", none⟩) "res"
    (by decide)

/-- A non-terminal status is neither terminal-success nor
terminal-failure. -/
lemma terminal_state_false (s : QueryStatus)
    (h : terminal_state s = false) :
    is_success_state s = false ∧ is_failure_state s = false := by
  cases hs : is_success_state s <;> cases hf : is_failure_state s <;>
    simp_all [terminal_state]

/-- One non-terminal iteration of the polling loop: poll, sleep 5 seconds,
continue at the next index. -/
lemma wait_loop_nonterminal_step (query_id : String) (timeout : Int)
    (status : Nat → QueryStatus) (download : String) (fuel j : Nat)
    (hj : 5 * (j : Int) < timeout)
    (hs : terminal_state (status j) = false) :
    wait_loop query_id timeout status download (fuel + 1) j
      = ((wait_loop query_id timeout status download fuel (j + 1)).1,
         .poll j (5 * (j : Int)) :: .sleep 5
           :: (wait_loop query_id timeout status download fuel (j + 1)).2) := by
  obtain ⟨hsucc, hfail⟩ := terminal_state_false (status j) hs
  simp [wait_loop, hj, hsucc, hfail]

/-- Running the polling loop across `c` consecutive non-terminal polls
prepends the corresponding poll/sleep trace and continues at index
`j + c`. -/
lemma wait_loop_skip (query_id : String) (timeout : Int)
    (status : Nat → QueryStatus) (download : String) :
    ∀ (c j fuel : Nat),
      (∀ i, i < c → terminal_state (status (j + i)) = false) →
      5 * (((j + c : Nat)) : Int) < timeout →
      wait_loop query_id timeout status download (fuel + c + 1) j
        = ((wait_loop query_id timeout status download (fuel + 1) (j + c)).1,
           polls_from j c
             ++ (wait_loop query_id timeout status download (fuel + 1) (j + c)).2) := by
  intro c
  induction c with
  | zero =>
    intro j fuel _ _
    simp [polls_from]
  | succ c ih =>
    intro j fuel hnt hlt
    have hj : 5 * (j : Int) < timeout := by
      have : (j : Int) ≤ ((j + (c + 1) : Nat) : Int) := by
        push_cast
        omega
      omega
    have hstep := wait_loop_nonterminal_step query_id timeout status download
      (fuel + c + 1) j hj (by simpa using hnt 0 (Nat.succ_pos c))
    have hrec := ih (j + 1) fuel
      (fun i hi => by
        have := hnt (i + 1) (Nat.succ_lt_succ hi)
        simpa [Nat.add_assoc, Nat.add_comm 1 i] using this)
      (by
        have : j + 1 + c = j + (c + 1) := by omega
        rw [this]
        exact hlt)
    have harr : fuel + (c + 1) + 1 = fuel + c + 1 + 1 := by omega
    rw [harr, hstep, hrec]
    have hidx : j + 1 + c = j + (c + 1) := by omega
    simp [polls_from, hidx]

/-- When no poll inside the timeout window is terminal, the loop always
times out, whatever the fuel. -/
lemma wait_loop_never_terminal (query_id : String) (timeout : Int)
    (status : Nat → QueryStatus) (download : String)
    (hall : ∀ j : Nat, 5 * (j : Int) < timeout →
      terminal_state (status j) = false) :
    ∀ fuel k, (wait_loop query_id timeout status download fuel k).1
      = .timedOut (timeout_msg query_id timeout) := by
  intro fuel
  induction fuel with
  | zero => intro k; rfl
  | succ f ih =>
    intro k
    by_cases hg : 5 * (k : Int) < timeout
    · obtain ⟨hsucc, hfail⟩ := terminal_state_false (status k) (hall k hg)
      simp [wait_loop, hg, hsucc, hfail, ih (k + 1)]
    · simp [wait_loop, hg]

/-- A terminal-failure status is not a terminal-success status. -/
lemma failure_not_success (s : QueryStatus)
    (h : is_failure_state s = true) : is_success_state s = false := by
  simp only [is_failure_state, Bool.or_eq_true, decide_eq_true_eq] at h
  rcases h with h1 | h1 <;> simp [is_success_state, h1]

/-- Claim C6: with a positive-enough timeout, `wait_for_query_completion`
polls at a fixed 5-second interval; if the k-th poll (issued at instant 5k,
inside the timeout window, all earlier polls non-terminal) reports
`COMPLETED`/`SUCCEEDED` it downloads and returns the results; if it
reports `FAILED`/`CANCELLED` it raises the job-failure error carrying the
provider's error message and polls no further (the trace ends at that
poll); and if no poll inside the window is terminal it raises
`TimeoutError` once the wall-clock timeout elapses. -/
theorem C6_wait_for_completion (query_id download : String) (timeout : Int)
    (status : Nat → QueryStatus) (k : Nat)
    (hprev : ∀ j, j < k → terminal_state (status j) = false)
    (hk : 5 * (k : Int) < timeout) :
    (is_success_state (status k) = true →
      wait_for_query_completion query_id timeout status download
        = (.results download, polls_up_to k ++ [.poll k (5 * (k : Int))]))
  ∧ (is_failure_state (status k) = true →
      wait_for_query_completion query_id timeout status download
        = (.jobFailed ("Query failed: " ++ (status k).error.getD "Unknown error"),
           polls_up_to k ++ [.poll k (5 * (k : Int))]))
  ∧ ((∀ j : Nat, 5 * (j : Int) < timeout →
        terminal_state (status j) = false) →
      (wait_for_query_completion query_id timeout status download).1
        = .timedOut (timeout_msg query_id timeout)) := by
  have hskip := wait_loop_skip query_id timeout status download k 0
    (timeout.toNat - k)
    (fun i hi => by simpa using hprev i hi)
    (by simpa using hk)
  simp only [Nat.zero_add] at hskip
  have he : timeout.toNat - k + k + 1 = timeout.toNat + 1 := by omega
  rw [he] at hskip
  refine ⟨?_, ?_, ?_⟩
  · intro hsucc
    have hterm : wait_loop query_id timeout status download
        (timeout.toNat - k + 1) k
        = (.results download, [.poll k (5 * (k : Int))]) := by
      simp [wait_loop, hk, hsucc]
    unfold wait_for_query_completion
    rw [hskip, hterm]
    rfl
  · intro hfail
    have hsf := failure_not_success (status k) hfail
    have hterm : wait_loop query_id timeout status download
        (timeout.toNat - k + 1) k
        = (.jobFailed ("Query failed: " ++ (status k).error.getD "Unknown error"),
           [.poll k (5 * (k : Int))]) := by
      simp [wait_loop, hk, hsf, hfail]
    unfold wait_for_query_completion
    rw [hskip, hterm]
    rfl
  · intro hall
    unfold wait_for_query_completion
    exact wait_loop_never_terminal query_id timeout status download hall _ 0

/-- Witness for C6: a query that is `COMPLETED` at the first poll returns
the downloaded results after exactly one poll. -/
theorem C6_witness :
    wait_for_query_completion "q1" 12 (fun _ => ⟨some "COMPLETED", none⟩) "res"
      = (.results "res", [.poll 0 0]) := by
  have h := (C6_wait_for_completion "q1" "res" 12
    (fun _ => ⟨some "COMPLETED", none⟩) 0
    (fun j hj => absurd hj (Nat.not_lt_zero j)) (by decide)).1 (by decide)
  simpa [polls_up_to, polls_from] using h

@[simp]
lemma countP_attempt_cons (t : Int) (h : Headers) (l : List Event) :
    List.countP is_attempt (.attempt t h :: l)
      = List.countP is_attempt l + 1 := by
  simp [List.countP_cons, is_attempt]

@[simp]
lemma countP_sleep_cons (d : Nat) (l : List Event) :
    List.countP is_attempt (.sleep d :: l) = List.countP is_attempt l := by
  simp [List.countP_cons, is_attempt]

@[simp]
lemma countP_refresh_cons (l : List Event) :
    List.countP is_attempt (.refresh :: l) = List.countP is_attempt l := by
  simp [List.countP_cons, is_attempt]

@[simp]
lemma sleeps_of_attempt (t : Int) (h : Headers) (l : List Event) :
    sleeps_of (.attempt t h :: l) = sleeps_of l := rfl

@[simp]
lemma sleeps_of_refresh (l : List Event) :
    sleeps_of (.refresh :: l) = sleeps_of l := rfl

@[simp]
lemma sleeps_of_sleep (d : Nat) (l : List Event) :
    sleeps_of (.sleep d :: l) = d :: sleeps_of l := rfl

/-- The retry loop issues at most `fuel` HTTP attempts. -/
lemma loop_attempts_le (mr : Nat) (transport : Nat → HttpResult)
    (provider : Nat → ProviderMsg) (buffer : Int) :
    ∀ fuel attempt st pcalls headers now,
      List.countP is_attempt
        (make_request_loop mr transport provider buffer fuel attempt st pcalls
          headers now).events ≤ fuel := by
  intro fuel
  induction fuel with
  | zero =>
    intro attempt st pcalls headers now
    simp [make_request_loop]
  | succ f ih =>
    intro attempt st pcalls headers now
    rw [make_request_loop]
    cases htr : transport attempt with
    | transportError m =>
      by_cases ha : attempt = mr
      · simp [ha]
      · simpa [ha] using ih (attempt + 1) st pcalls headers
          (now + ((2 ^ attempt : Nat) : Int))
    | response resp =>
      by_cases h401 : resp.status = 401 ∧ attempt < mr
      · rcases href : refresh_access_token st now provider pcalls
          with ⟨r1, st1, pc1⟩
        cases r1 with
        | error e => simp [h401, href]
        | ok tok =>
          simp only [h401, if_true, href]
          simpa using ih (attempt + 1) _ _ _ now
      · by_cases h4 : 400 ≤ resp.status ∧ resp.status < 600
        · by_cases ha : attempt = mr
          · simp [h401, h4, ha]
          · simp only [h401, if_false, h4, if_true, ha]
            simpa using ih (attempt + 1) st pcalls headers
              (now + ((2 ^ attempt : Nat) : Int))
        · simp [h401, h4]

/-- Loop step on a transport exception with attempts remaining: record the
attempt, sleep `2 ^ attempt` seconds, retry. -/
lemma loop_eq_terr_backoff (mr : Nat) (transport : Nat → HttpResult)
    (provider : Nat → ProviderMsg) (buffer : Int) (fuel attempt : Nat)
    (st : TokenState) (pcalls : Nat) (headers : Headers) (now : Int)
    (m : String) (hresp : transport attempt = .transportError m)
    (hne : attempt ≠ mr) :
    make_request_loop mr transport provider buffer (fuel + 1) attempt st
        pcalls headers now
      = { make_request_loop mr transport provider buffer fuel (attempt + 1) st
            pcalls headers (now + ((2 ^ attempt : Nat) : Int)) with
          events := .attempt now headers :: .sleep (2 ^ attempt)
            :: (make_request_loop mr transport provider buffer fuel
                (attempt + 1) st pcalls headers
                (now + ((2 ^ attempt : Nat) : Int))).events } := by
  rw [make_request_loop, hresp]
  simp [hne]

/-- Loop step on a transport exception on the final attempt: the error is
propagated. -/
lemma loop_eq_terr_last (mr : Nat) (transport : Nat → HttpResult)
    (provider : Nat → ProviderMsg) (buffer : Int) (fuel attempt : Nat)
    (st : TokenState) (pcalls : Nat) (headers : Headers) (now : Int)
    (m : String) (hresp : transport attempt = .transportError m)
    (ha : attempt = mr) :
    make_request_loop mr transport provider buffer (fuel + 1) attempt st
        pcalls headers now
      = ⟨.error (.transportError m), st, pcalls, now, [.attempt now headers]⟩ := by
  rw [make_request_loop, hresp]
  simp [ha]

/-- Loop step on an HTTP error status (the `raise_for_status` range,
excluding the 401-with-attempts-remaining branch) with attempts remaining:
record the attempt, sleep `2 ^ attempt` seconds, retry. -/
lemma loop_eq_resp_backoff (mr : Nat) (transport : Nat → HttpResult)
    (provider : Nat → ProviderMsg) (buffer : Int) (fuel attempt : Nat)
    (st : TokenState) (pcalls : Nat) (headers : Headers) (now : Int)
    (resp : HttpResponse) (hresp : transport attempt = .response resp)
    (hcond : ¬ (resp.status = 401 ∧ attempt < mr))
    (h4 : 400 ≤ resp.status ∧ resp.status < 600) (hne : attempt ≠ mr) :
    make_request_loop mr transport provider buffer (fuel + 1) attempt st
        pcalls headers now
      = { make_request_loop mr transport provider buffer fuel (attempt + 1) st
            pcalls headers (now + ((2 ^ attempt : Nat) : Int)) with
          events := .attempt now headers :: .sleep (2 ^ attempt)
            :: (make_request_loop mr transport provider buffer fuel
                (attempt + 1) st pcalls headers
                (now + ((2 ^ attempt : Nat) : Int))).events } := by
  rw [make_request_loop, hresp]
  simp [hcond, h4.1, h4.2, hne]

/-- Loop step on an HTTP error status on the final attempt: `HTTPError`
propagates (this includes a 401 on the final attempt, which triggers no
refresh). -/
lemma loop_eq_resp_last (mr : Nat) (transport : Nat → HttpResult)
    (provider : Nat → ProviderMsg) (buffer : Int) (fuel attempt : Nat)
    (st : TokenState) (pcalls : Nat) (headers : Headers) (now : Int)
    (resp : HttpResponse) (hresp : transport attempt = .response resp)
    (hcond : ¬ (resp.status = 401 ∧ attempt < mr))
    (h4 : 400 ≤ resp.status ∧ resp.status < 600) (ha : attempt = mr) :
    make_request_loop mr transport provider buffer (fuel + 1) attempt st
        pcalls headers now
      = ⟨.error (.httpError resp.status), st, pcalls, now,
         [.attempt now headers]⟩ := by
  rw [make_request_loop, hresp]
  simp [hcond, h4.1, h4.2, ha]

/-- Loop step on a 401 with attempts remaining when the forced refresh
succeeds: record the attempt and the refresh, rebuild headers, retry at the
same instant. -/
lemma loop_eq_401_ok (mr : Nat) (transport : Nat → HttpResult)
    (provider : Nat → ProviderMsg) (buffer : Int) (fuel attempt : Nat)
    (st : TokenState) (pcalls : Nat) (headers : Headers) (now : Int)
    (resp : HttpResponse) (tok : String) (st1 : TokenState) (pc1 : Nat)
    (hresp : transport attempt = .response resp)
    (hs : resp.status = 401) (hlt : attempt < mr)
    (href : refresh_access_token st now provider pcalls = (.ok tok, st1, pc1)) :
    make_request_loop mr transport provider buffer (fuel + 1) attempt st
        pcalls headers now
      = { make_request_loop mr transport provider buffer fuel (attempt + 1)
            (get_headers st1 buffer now provider pc1).2.1
            (get_headers st1 buffer now provider pc1).2.2
            (get_headers st1 buffer now provider pc1).1 now with
          events := .attempt now headers :: .refresh
            :: (make_request_loop mr transport provider buffer fuel
                (attempt + 1)
                (get_headers st1 buffer now provider pc1).2.1
                (get_headers st1 buffer now provider pc1).2.2
                (get_headers st1 buffer now provider pc1).1 now).events } := by
  rw [make_request_loop, hresp]
  simp [hs, hlt, href]

/-- Loop step on a 401 with attempts remaining when the forced refresh
fails: the raised token error is not a `requests.RequestException`, so it
propagates out of `_make_request` and there is no retry. -/
lemma loop_eq_401_err (mr : Nat) (transport : Nat → HttpResult)
    (provider : Nat → ProviderMsg) (buffer : Int) (fuel attempt : Nat)
    (st : TokenState) (pcalls : Nat) (headers : Headers) (now : Int)
    (resp : HttpResponse) (e : TokenError) (st1 : TokenState) (pc1 : Nat)
    (hresp : transport attempt = .response resp)
    (hs : resp.status = 401) (hlt : attempt < mr)
    (href : refresh_access_token st now provider pcalls
      = (.error e, st1, pc1)) :
    make_request_loop mr transport provider buffer (fuel + 1) attempt st
        pcalls headers now
      = ⟨.error (.tokenError e), st1, pc1, now,
         [.attempt now headers, .refresh]⟩ := by
  rw [make_request_loop, hresp]
  simp [hs, hlt, href]

/-- Loop step on a non-error status: the response is returned. -/
lemma loop_eq_ok (mr : Nat) (transport : Nat → HttpResult)
    (provider : Nat → ProviderMsg) (buffer : Int) (fuel attempt : Nat)
    (st : TokenState) (pcalls : Nat) (headers : Headers) (now : Int)
    (resp : HttpResponse) (hresp : transport attempt = .response resp)
    (hcond : ¬ (resp.status = 401 ∧ attempt < mr))
    (h4 : ¬ (400 ≤ resp.status ∧ resp.status < 600)) :
    make_request_loop mr transport provider buffer (fuel + 1) attempt st
        pcalls headers now
      = ⟨.ok resp, st, pcalls, now, [.attempt now headers]⟩ := by
  rw [make_request_loop, hresp]
  simp [hcond, h4]

/-- Every sleep of the retry loop entered at `attempt` lasts at least
`2 ^ attempt` seconds, and the sleep durations are non-decreasing along the
run. -/
lemma loop_sleeps (mr : Nat) (transport : Nat → HttpResult)
    (provider : Nat → ProviderMsg) (buffer : Int) :
    ∀ fuel attempt st pcalls headers now,
      List.Chain' (· ≤ ·)
        (sleeps_of (make_request_loop mr transport provider buffer fuel attempt
          st pcalls headers now).events)
      ∧ ∀ d ∈ sleeps_of (make_request_loop mr transport provider buffer fuel
          attempt st pcalls headers now).events, 2 ^ attempt ≤ d := by
  intro fuel
  induction fuel with
  | zero =>
    intro attempt st pcalls headers now
    simp [make_request_loop, sleeps_of]
  | succ f ih =>
    intro attempt st pcalls headers now
    have hmono : 2 ^ attempt ≤ 2 ^ (attempt + 1) :=
      Nat.pow_le_pow_right (by norm_num) (Nat.le_succ attempt)
    cases htr : transport attempt with
    | transportError m =>
      by_cases ha : attempt = mr
      · rw [loop_eq_terr_last mr transport provider buffer f attempt st pcalls
          headers now m htr ha]
        simp [sleeps_of]
      · rw [loop_eq_terr_backoff mr transport provider buffer f attempt st
          pcalls headers now m htr ha]
        obtain ⟨hc, hm⟩ := ih (attempt + 1) st pcalls headers
          (now + ((2 ^ attempt : Nat) : Int))
        refine ⟨?_, ?_⟩
        · simp only [sleeps_of_attempt, sleeps_of_sleep]
          rw [List.chain'_cons']
          exact ⟨fun b hb => le_trans hmono
            (hm b (List.mem_of_mem_head? hb)), hc⟩
        · intro d hd
          simp only [sleeps_of_attempt, sleeps_of_sleep, List.mem_cons] at hd
          rcases hd with rfl | hd
          · exact le_refl _
          · exact le_trans hmono (hm d hd)
    | response resp =>
      by_cases h401 : resp.status = 401 ∧ attempt < mr
      · rcases href : refresh_access_token st now provider pcalls
          with ⟨r1, st1, pc1⟩
        cases r1 with
        | error e =>
          rw [loop_eq_401_err mr transport provider buffer f attempt st pcalls
            headers now resp e st1 pc1 htr h401.1 h401.2 href]
          simp [sleeps_of]
        | ok tok =>
          rw [loop_eq_401_ok mr transport provider buffer f attempt st pcalls
            headers now resp tok st1 pc1 htr h401.1 h401.2 href]
          obtain ⟨hc, hm⟩ := ih (attempt + 1)
            (get_headers st1 buffer now provider pc1).2.1
            (get_headers st1 buffer now provider pc1).2.2
            (get_headers st1 buffer now provider pc1).1 now
          simp only [sleeps_of_attempt, sleeps_of_refresh]
          exact ⟨hc, fun d hd => le_trans hmono (hm d hd)⟩
      · by_cases h4 : 400 ≤ resp.status ∧ resp.status < 600
        · by_cases ha : attempt = mr
          · rw [loop_eq_resp_last mr transport provider buffer f attempt st
              pcalls headers now resp htr h401 h4 ha]
            simp [sleeps_of]
          · rw [loop_eq_resp_backoff mr transport provider buffer f attempt st
              pcalls headers now resp htr h401 h4 ha]
            obtain ⟨hc, hm⟩ := ih (attempt + 1) st pcalls headers
              (now + ((2 ^ attempt : Nat) : Int))
            refine ⟨?_, ?_⟩
            · simp only [sleeps_of_attempt, sleeps_of_sleep]
              rw [List.chain'_cons']
              exact ⟨fun b hb => le_trans hmono
                (hm b (List.mem_of_mem_head? hb)), hc⟩
            · intro d hd
              simp only [sleeps_of_attempt, sleeps_of_sleep,
                List.mem_cons] at hd
              rcases hd with rfl | hd
              · exact le_refl _
              · exact le_trans hmono (hm d hd)
        · rw [loop_eq_ok mr transport provider buffer f attempt st pcalls
            headers now resp htr h401 h4]
          simp [sleeps_of]

/-- After a non-401 failure of attempt `k` with attempts remaining, the
loop sleeps exactly `2 ^ k` seconds and re-enters at attempt `k + 1` with
the clock advanced by exactly that amount. -/
lemma loop_fail_step (mr : Nat) (transport : Nat → HttpResult)
    (provider : Nat → ProviderMsg) (buffer : Int) (fuel attempt : Nat)
    (st : TokenState) (pcalls : Nat) (headers : Headers) (now : Int)
    (hlt : attempt < mr)
    (hf : transport_failure_non401 (transport attempt)) :
    (make_request_loop mr transport provider buffer (fuel + 1) attempt st
        pcalls headers now).events
      = .attempt now headers :: .sleep (2 ^ attempt)
          :: (make_request_loop mr transport provider buffer fuel (attempt + 1)
              st pcalls headers (now + ((2 ^ attempt : Nat) : Int))).events := by
  have hne : attempt ≠ mr := Nat.ne_of_lt hlt
  cases htr : transport attempt with
  | transportError m =>
    rw [loop_eq_terr_backoff mr transport provider buffer fuel attempt st
      pcalls headers now m htr hne]
  | response resp =>
    rw [htr] at hf
    obtain ⟨h400, h600, hn401⟩ := hf
    rw [loop_eq_resp_backoff mr transport provider buffer fuel attempt st
      pcalls headers now resp htr (fun h => hn401 h.1) ⟨h400, h600⟩ hne]

/-- With positive fuel, the first event of the loop is the attempt issued
with the entry headers at the entry instant. -/
lemma loop_head_attempt (mr : Nat) (transport : Nat → HttpResult)
    (provider : Nat → ProviderMsg) (buffer : Int) (fuel attempt : Nat)
    (st : TokenState) (pcalls : Nat) (headers : Headers) (now : Int) :
    (make_request_loop mr transport provider buffer (fuel + 1) attempt
        st pcalls headers now).events.head?
      = some (.attempt now headers) := by
  cases htr : transport attempt with
  | transportError m =>
    by_cases ha : attempt = mr
    · rw [loop_eq_terr_last mr transport provider buffer fuel attempt st
        pcalls headers now m htr ha]
      rfl
    · rw [loop_eq_terr_backoff mr transport provider buffer fuel attempt st
        pcalls headers now m htr ha]
      rfl
  | response resp =>
    by_cases h401 : resp.status = 401 ∧ attempt < mr
    · rcases href : refresh_access_token st now provider pcalls
        with ⟨r1, st1, pc1⟩
      cases r1 with
      | error e =>
        rw [loop_eq_401_err mr transport provider buffer fuel attempt st
          pcalls headers now resp e st1 pc1 htr h401.1 h401.2 href]
        rfl
      | ok tok =>
        rw [loop_eq_401_ok mr transport provider buffer fuel attempt st
          pcalls headers now resp tok st1 pc1 htr h401.1 h401.2 href]
        rfl
    · by_cases h4 : 400 ≤ resp.status ∧ resp.status < 600
      · by_cases ha : attempt = mr
        · rw [loop_eq_resp_last mr transport provider buffer fuel attempt st
            pcalls headers now resp htr h401 h4 ha]
          rfl
        · rw [loop_eq_resp_backoff mr transport provider buffer fuel attempt
            st pcalls headers now resp htr h401 h4 ha]
          rfl
      · rw [loop_eq_ok mr transport provider buffer fuel attempt st pcalls
          headers now resp htr h401 h4]
        rfl

/-- When every attempt fails with a non-401 failure, the loop exhausts its
fuel and propagates the error of the last attempt (`attempt = mr`). -/
lemma loop_all_fail (mr : Nat) (transport : Nat → HttpResult)
    (provider : Nat → ProviderMsg) (buffer : Int)
    (hall : ∀ j, transport_failure_non401 (transport j)) :
    ∀ fuel attempt st pcalls headers now, 0 < fuel →
      attempt + fuel = mr + 1 →
      (make_request_loop mr transport provider buffer fuel attempt st pcalls
        headers now).result = fail_result (transport mr) := by
  intro fuel
  induction fuel with
  | zero =>
    intro attempt st pcalls headers now h0
    omega
  | succ f ih =>
    intro attempt st pcalls headers now _ hsum
    rcases Nat.eq_zero_or_pos f with hf0 | hfpos
    · subst hf0
      have ha : attempt = mr := by omega
      subst ha
      cases htr : transport attempt with
      | transportError m =>
        rw [loop_eq_terr_last attempt transport provider buffer 0 attempt st
          pcalls headers now m htr rfl]
        simp [fail_result, htr]
      | response resp =>
        have hf := hall attempt
        rw [htr] at hf
        obtain ⟨h400, h600, hn401⟩ := hf
        rw [loop_eq_resp_last attempt transport provider buffer 0 attempt st
          pcalls headers now resp htr (fun h => hn401 h.1) ⟨h400, h600⟩ rfl]
        simp [fail_result, htr]
    · have hlt : attempt < mr := by omega
      have hstep := loop_fail_step mr transport provider buffer f attempt st
        pcalls headers now hlt (hall attempt)
      have hres : (make_request_loop mr transport provider buffer (f + 1)
          attempt st pcalls headers now).result
          = (make_request_loop mr transport provider buffer f (attempt + 1)
              st pcalls headers (now + ((2 ^ attempt : Nat) : Int))).result := by
        cases htr : transport attempt with
        | transportError m =>
          rw [loop_eq_terr_backoff mr transport provider buffer f attempt st
            pcalls headers now m htr (Nat.ne_of_lt hlt)]
        | response resp =>
          have hf := hall attempt
          rw [htr] at hf
          obtain ⟨h400, h600, hn401⟩ := hf
          rw [loop_eq_resp_backoff mr transport provider buffer f attempt st
            pcalls headers now resp htr (fun h => hn401 h.1) ⟨h400, h600⟩
            (Nat.ne_of_lt hlt)]
      rw [hres]
      exact ih (attempt + 1) st pcalls headers
        (now + ((2 ^ attempt : Nat) : Int)) hfpos (by omega)

/-- Claim C3: `_make_request` issues at most `max_retries + 1` HTTP
attempts; after a non-401 failure of attempt `k` (attempts remaining) it
sleeps exactly `2 ^ k` seconds before attempt `k + 1`; the sleep durations
of any run are non-decreasing; with `max_retries = 2` and a transport
returning 500, 500, 200 the call succeeds on the third attempt after
sleeping 1 + 2 = 3 seconds in total; and when every attempt fails the last
attempt's error is propagated to the caller. -/
theorem C3_retry_backoff :
    (∀ (mr : Nat) (transport : Nat → HttpResult)
        (provider : Nat → ProviderMsg) (buffer : Int) (st : TokenState)
        (now : Int),
      List.countP is_attempt
        (make_request mr transport provider buffer st now).events ≤ mr + 1)
  ∧ (∀ (mr : Nat) (transport : Nat → HttpResult)
        (provider : Nat → ProviderMsg) (buffer : Int) (fuel k : Nat)
        (st : TokenState) (pcalls : Nat) (headers : Headers) (now : Int),
      k < mr → transport_failure_non401 (transport k) →
      (make_request_loop mr transport provider buffer (fuel + 1) k st pcalls
          headers now).events
        = .attempt now headers :: .sleep (2 ^ k)
            :: (make_request_loop mr transport provider buffer fuel (k + 1) st
                pcalls headers (now + ((2 ^ k : Nat) : Int))).events)
  ∧ (∀ (mr : Nat) (transport : Nat → HttpResult)
        (provider : Nat → ProviderMsg) (buffer : Int) (st : TokenState)
        (now : Int),
      List.Chain' (· ≤ ·)
        (sleeps_of (make_request mr transport provider buffer st now).events))
  ∧ (make_request 2 (fun k => .response ⟨if k ≤ 1 then 500 else 200⟩)
        (fun _ => .response ⟨some "tok", some 3600⟩) 300 ⟨none, none, none⟩ 0
      = ⟨.ok ⟨200⟩, ⟨some "tok", none, some 3600⟩, 1, 3,
         [.attempt 0 ⟨some "Bearer tok", "application/json",
            "application/json", "DataHive-API-Client/1.0"⟩,
          .sleep 1,
          .attempt 1 ⟨some "Bearer tok", "application/json",
            "application/json", "DataHive-API-Client/1.0"⟩,
          .sleep 2,
          .attempt 3 ⟨some "Bearer tok", "application/json",
            "application/json", "DataHive-API-Client/1.0"⟩]⟩
     ∧ sleeps_of (make_request 2 (fun k => .response ⟨if k ≤ 1 then 500 else 200⟩)
          (fun _ => .response ⟨some "tok", some 3600⟩) 300
          ⟨none, none, none⟩ 0).events = [1, 2]
     ∧ (sleeps_of (make_request 2
          (fun k => .response ⟨if k ≤ 1 then 500 else 200⟩)
          (fun _ => .response ⟨some "tok", some 3600⟩) 300
          ⟨none, none, none⟩ 0).events).sum = 3
     ∧ List.countP is_attempt (make_request 2
          (fun k => .response ⟨if k ≤ 1 then 500 else 200⟩)
          (fun _ => .response ⟨some "tok", some 3600⟩) 300
          ⟨none, none, none⟩ 0).events = 3)
  ∧ (∀ (mr : Nat) (transport : Nat → HttpResult)
        (provider : Nat → ProviderMsg) (buffer : Int) (st : TokenState)
        (now : Int),
      (∀ j, transport_failure_non401 (transport j)) →
      (make_request mr transport provider buffer st now).result
        = fail_result (transport mr)) := by
  refine ⟨?_, ?_, ?_, by decide, ?_⟩
  · intro mr transport provider buffer st now
    have h := loop_attempts_le mr transport provider buffer (mr + 1) 0
      (get_headers st buffer now provider 0).2.1
      (get_headers st buffer now provider 0).2.2
      (get_headers st buffer now provider 0).1 now
    simpa [make_request] using h
  · intro mr transport provider buffer fuel k st pcalls headers now hlt hf
    exact loop_fail_step mr transport provider buffer fuel k st pcalls
      headers now hlt hf
  · intro mr transport provider buffer st now
    have h := (loop_sleeps mr transport provider buffer (mr + 1) 0
      (get_headers st buffer now provider 0).2.1
      (get_headers st buffer now provider 0).2.2
      (get_headers st buffer now provider 0).1 now).1
    simpa [make_request] using h
  · intro mr transport provider buffer st now hall
    have h := loop_all_fail mr transport provider buffer hall (mr + 1) 0
      (get_headers st buffer now provider 0).2.1
      (get_headers st buffer now provider 0).2.2
      (get_headers st buffer now provider 0).1 now (by omega) (by omega)
    simpa [make_request] using h

/-- Witness for C3: a transport that always answers 500 with
`max_retries = 1` propagates the final 500 to the caller. -/
theorem C3_witness :
    (make_request 1 (fun _ => .response ⟨500⟩)
       (fun _ => .response ⟨some "t", some 3600⟩) 300
       ⟨none, none, none⟩ 0).result = .error (.httpError 500) := by
  have h := C3_retry_backoff.2.2.2.2 1 (fun _ => .response ⟨500⟩)
    (fun _ => .response ⟨some "t", some 3600⟩) 300 ⟨none, none, none⟩ 0
    (fun _ => (by decide : transport_failure_non401 (HttpResult.response ⟨500⟩)))
  simpa [fail_result] using h

/-- Counterexample to claim C2: with `max_retries = 0`, a `_make_request`
call receives an HTTP 401 response yet performs no forced token refresh and
no retry — the 401 propagates as an error after a single attempt, because
the refresh branch requires `attempt < max_retries`.  So not every call
receiving a 401 refreshes and retries. -/
theorem C2_counterexample :
    (make_request 0 (fun _ => .response ⟨401⟩)
       (fun _ => .response ⟨some "newtok", some 3600⟩) 300
       ⟨some "oldtok", none, some 100000⟩ 0).result = .error (.httpError 401)
  ∧ List.countP is_refresh
      (make_request 0 (fun _ => .response ⟨401⟩)
        (fun _ => .response ⟨some "newtok", some 3600⟩) 300
        ⟨some "oldtok", none, some 100000⟩ 0).events = 0
  ∧ List.countP is_attempt
      (make_request 0 (fun _ => .response ⟨401⟩)
        (fun _ => .response ⟨some "newtok", some 3600⟩) 300
        ⟨some "oldtok", none, some 100000⟩ 0).events = 1 := by
  decide

/-- Claim C2 as amended: when an attempt `k` of the retry loop of
`_make_request` receives HTTP 401 with attempts remaining
(`k < max_retries`) and the forced refresh succeeds (the provider issues a
non-empty token whose `expires_in` exceeds the expiry buffer, as the
defaults 3600 and 300 do), then exactly one forced refresh happens between
attempt `k` and the retry — the trace continues
`attempt … :: refresh :: (next attempt) …` with no sleep event in between —
the retry is issued at the same instant `now` (no backoff delay), and it
carries `Authorization: Bearer <new token>`.  A 401 on the final attempt
instead propagates with no refresh (see the counterexample). -/
theorem C2_amended (mr : Nat) (transport : Nat → HttpResult)
    (provider : Nat → ProviderMsg) (buffer : Int) (fuel k : Nat)
    (st : TokenState) (pcalls : Nat) (headers : Headers) (now : Int)
    (resp : HttpResponse) (tok : String) (ein : Option Int)
    (hresp : transport k = .response resp) (hs : resp.status = 401)
    (hlt : k < mr)
    (hpr : provider pcalls = .response ⟨some tok, ein⟩)
    (htok : tok ≠ "") (hbuf : buffer < ein.getD 3600) :
    (make_request_loop mr transport provider buffer (fuel + 2) k st pcalls
        headers now).events
      = .attempt now headers :: .refresh
          :: (make_request_loop mr transport provider buffer (fuel + 1) (k + 1)
              { st with access_token := some tok,
                        token_expires_at := some (now + ein.getD 3600) }
              (pcalls + 1)
              ⟨some ("Bearer " ++ tok), "application/json", "application/json",
               "DataHive-API-Client/1.0"⟩ now).events
  ∧ (make_request_loop mr transport provider buffer (fuel + 1) (k + 1)
        { st with access_token := some tok,
                  token_expires_at := some (now + ein.getD 3600) }
        (pcalls + 1)
        ⟨some ("Bearer " ++ tok), "application/json", "application/json",
         "DataHive-API-Client/1.0"⟩ now).events.head?
      = some (.attempt now
          ⟨some ("Bearer " ++ tok), "application/json", "application/json",
           "DataHive-API-Client/1.0"⟩) := by
  have href : refresh_access_token st now provider pcalls
      = (.ok tok,
         { st with access_token := some tok,
                   token_expires_at := some (now + ein.getD 3600) },
         pcalls + 1) := by
    rw [refresh_is_acquire, hpr]
    simp [acquire_new_token]
  have hvalid : is_token_valid
      { st with access_token := some tok,
                token_expires_at := some (now + ein.getD 3600) }
      buffer now = true := by
    simp [is_token_valid, htok]
    omega
  have hgh : get_headers
      { st with access_token := some tok,
                token_expires_at := some (now + ein.getD 3600) }
      buffer now provider (pcalls + 1)
      = (⟨some ("Bearer " ++ tok), "application/json", "application/json",
          "DataHive-API-Client/1.0"⟩,
         { st with access_token := some tok,
                   token_expires_at := some (now + ein.getD 3600) },
         pcalls + 1) := by
    simp [get_headers, get_access_token, hvalid]
  constructor
  · rw [loop_eq_401_ok mr transport provider buffer (fuel + 1) k st pcalls
      headers now resp tok
      { st with access_token := some tok,
                token_expires_at := some (now + ein.getD 3600) }
      (pcalls + 1) hresp hs hlt href]
    rw [hgh]
  · exact loop_head_attempt mr transport provider buffer fuel (k + 1)
      { st with access_token := some tok,
                token_expires_at := some (now + ein.getD 3600) }
      (pcalls + 1)
      ⟨some ("Bearer " ++ tok), "application/json", "application/json",
       "DataHive-API-Client/1.0"⟩ now

/-- Witness for C2 at a concrete run: `max_retries = 1`, first attempt
answered 401, refresh issues `"newtok"`, retry at the same instant carries
the new bearer token and succeeds. -/
theorem C2_witness :
    (make_request_loop 1 (fun k => .response ⟨if k = 0 then 401 else 200⟩)
        (fun _ => .response ⟨some "newtok", some 3600⟩) 300 2 0
        ⟨some "oldtok", none, some 100000⟩ 0
        ⟨some "Bearer oldtok", "application/json", "application/json",
         "DataHive-API-Client/1.0"⟩ 0).events
      = [.attempt 0 ⟨some "Bearer oldtok", "application/json",
           "application/json", "DataHive-API-Client/1.0"⟩,
         .refresh,
         .attempt 0 ⟨some "Bearer newtok", "application/json",
           "application/json", "DataHive-API-Client/1.0"⟩] := by
  have h := C2_amended 1 (fun k => .response ⟨if k = 0 then 401 else 200⟩)
    (fun _ => .response ⟨some "newtok", some 3600⟩) 300 0 0
    ⟨some "oldtok", none, some 100000⟩ 0
    ⟨some "Bearer oldtok", "application/json", "application/json",
     "DataHive-API-Client/1.0"⟩ 0 ⟨401⟩ "newtok" (some 3600)
    rfl rfl (by decide) rfl (by decide) (by decide)
  rw [h.1]
  decide
